import Mathlib

/-!
Shallow embedding of the real-time session coordination engine of the
`coplay` repository (`src/play_date/api/websocket_handler.py`).

The Python module keeps two module-level dictionaries,

  active_connections = {}  -- comment says {player_id: session_id}, the code
                           -- actually stores request.sid as the value
  game_sessions = {}       -- {session_id: {players, game_data, status, ...}}

plus the flask-socketio room state, and defines one handler per inbound
socket event.  Here Python dicts become insertion-ordered association
lists with Python's update semantics (assignment to an existing key keeps
its position, otherwise appends), session/player dicts become structures,
`datetime.now()` becomes an explicit `now : Nat` argument, `request.sid`
becomes an explicit `reqSid : String` argument, and every `emit` becomes
an `Emission` record carrying the event name, the payload and the list of
recipient connection handles.  `data.get(k)` on an event payload is an
`Option` field (`none` = key absent).
-/

namespace PlayDate

/-- JSON-like values as carried in socket event payloads and stored as the
opaque `game_data` blob. -/
inductive Value where
  | null : Value
  | bool : Bool → Value
  | int : Int → Value
  | str : String → Value
  | list : List Value → Value
  | obj : List (String × Value) → Value

/-- Python truthiness of a payload value: `None`, `False`, `0`, `""`, `[]`
and `{}` are falsy, everything else is truthy. -/
def Value.truthy : Value → Bool
  | .null => false
  | .bool b => b
  | .int n => n != 0
  | .str s => s != ""
  | .list xs => !xs.isEmpty
  | .obj kvs => !kvs.isEmpty

/-- Truthiness of `data.get(k)` for a string-valued field: absent keys give
`None` (falsy); a present empty string is falsy too. -/
def truthyS : Option String → Bool
  | none => false
  | some s => s != ""

/-- Truthiness of `data.get(k)` for a blob-valued field. -/
def truthyV : Option Value → Bool
  | none => false
  | some v => v.truthy

/-- `d[k]` / `d.get(k)` on an insertion-ordered dictionary. -/
def dictGet : List (String × α) → String → Option α
  | [], _ => none
  | e :: d, k => if e.1 == k then some e.2 else dictGet d k

/-- `d[k] = v`: assignment to an existing key keeps its position, a new key
is appended (Python dict semantics; keys are unique by construction). -/
def dictSet : List (String × α) → String → α → List (String × α)
  | [], k, v => [(k, v)]
  | e :: d, k, v => if e.1 == k then (k, v) :: d else e :: dictSet d k v

/-- `del d[k]`. -/
def dictDel (d : List (String × α)) (k : String) : List (String × α) :=
  d.filter (fun e => e.1 != k)

/-- One entry of a session's `players` list (the Python player dict built in
`handle_join_session` / `handle_create_session`; `last_seen` is only added
later by `handle_heartbeat`, hence optional). -/
structure Player where
  id : String
  name : String
  isReady : Bool
  isConnected : Bool
  joined_at : Nat
  last_seen : Option Nat
deriving DecidableEq

/-- One entry of `game_sessions`.  `game_type` is optional because sessions
initialised implicitly by `handle_join_session` never receive that key,
while `handle_create_session` always sets it. -/
structure Session where
  players : List Player
  game_data : Option Value
  status : String
  game_type : Option String
  created_at : Nat

/-- The module-level mutable state: the two dictionaries plus the
flask-socketio room membership (`session_id ↦` joined connection handles). -/
structure ServerState where
  active_connections : List (String × String)
  game_sessions : List (String × Session)
  rooms : List (String × List String)

/-- One `emit` call: event name, payload, and the connection handles that
receive it (already resolved against the room state at emission time). -/
structure Emission where
  event : String
  payload : Value
  recipients : List String

/-- Handles currently joined to a room. -/
def roomMembers (rooms : List (String × List String)) (sid : String) : List String :=
  (dictGet rooms sid).getD []

/-- `join_room(sid)` for handle `h` (no duplicate entries). -/
def roomJoin (rooms : List (String × List String)) (sid h : String) :
    List (String × List String) :=
  let m := roomMembers rooms sid
  dictSet rooms sid (if m.contains h then m else m ++ [h])

/-- `leave_room(sid)` for handle `h` (a no-op on a room that was never
joined, as in flask-socketio). -/
def roomLeave (rooms : List (String × List String)) (sid h : String) :
    List (String × List String) :=
  match dictGet rooms sid with
  | none => rooms
  | some m => dictSet rooms sid (m.filter (fun x => x != h))

/-- `emit(event, payload)` with no room: unicast to the sender. -/
def emitSender (reqSid event : String) (payload : Value) : Emission :=
  ⟨event, payload, [reqSid]⟩

/-- The `error` emission every validation failure produces. -/
def errorEmission (reqSid msg : String) : Emission :=
  emitSender reqSid "error" (.obj [("message", .str msg)])

/-- Update the first list element satisfying `p` (Python `for … break`). -/
def updateFirst (p : α → Bool) (f : α → α) : List α → List α
  | [] => []
  | x :: xs => if p x then f x :: xs else x :: updateFirst p f xs

/-- The player dict as it appears in emission payloads (Python key order:
insertion order of the dict literal, `last_seen` last when present). -/
def playerToValue (p : Player) : Value :=
  .obj ([("id", .str p.id), ("name", .str p.name), ("isReady", .bool p.isReady),
         ("isConnected", .bool p.isConnected), ("joined_at", .str (toString p.joined_at))] ++
        (match p.last_seen with
         | none => []
         | some t => [("last_seen", .str (toString t))]))

/-- Payload of the `join_session` event. -/
structure JoinData where
  sessionId : Option String
  playerId : Option String
  playerName : Option String

/-- `handle_join_session` (websocket_handler.py lines 55–120).  Validates
`sessionId`/`playerId`, registers the connection, joins the room,
initialises the session if absent (with no `game_type` key), upserts the
player, and emits `player_join` to the room and `session_state` to the
sender. -/
def handle_join_session (reqSid : String) (now : Nat) (d : JoinData)
    (s : ServerState) : ServerState × List Emission :=
  if !(truthyS d.sessionId && truthyS d.playerId) then
    (s, [errorEmission reqSid "Missing sessionId or playerId"])
  else
    let session_id := d.sessionId.getD ""
    let player_id := d.playerId.getD ""
    let player_name := d.playerName.getD "Player"
    let conns := dictSet s.active_connections player_id reqSid
    let rooms := roomJoin s.rooms session_id reqSid
    let sessions :=
      match dictGet s.game_sessions session_id with
      | some _ => s.game_sessions
      | none => dictSet s.game_sessions session_id ⟨[], none, "waiting", none, now⟩
    let sess := (dictGet sessions session_id).getD ⟨[], none, "waiting", none, now⟩
    let player_info : Player := ⟨player_id, player_name, false, true, now, none⟩
    let players :=
      if sess.players.any (fun p => p.id == player_id) then
        updateFirst (fun p => p.id == player_id)
          (fun p => { p with isConnected := true, joined_at := now }) sess.players
      else
        sess.players ++ [player_info]
    let sess := { sess with players := players }
    let sessions := dictSet sessions session_id sess
    (⟨conns, sessions, rooms⟩,
     [⟨"player_join", playerToValue player_info, roomMembers rooms session_id⟩,
      emitSender reqSid "session_state"
        (.obj [("sessionId", .str session_id),
               ("players", .list (sess.players.map playerToValue)),
               ("gameData", sess.game_data.getD .null),
               ("status", .str sess.status)])])

/-- Payload of the `leave_session` event. -/
structure LeaveData where
  sessionId : Option String
  playerId : Option String

/-- `handle_leave_session` (lines 122–160).  Validates, unregisters the
connection, leaves the room, filters the player out of the session,
broadcasts `player_leave` (after the room leave, so the sender gets no
echo), and deletes the session once its `players` list is empty. -/
def handle_leave_session (reqSid : String) (d : LeaveData)
    (s : ServerState) : ServerState × List Emission :=
  if !(truthyS d.sessionId && truthyS d.playerId) then
    (s, [errorEmission reqSid "Missing sessionId or playerId"])
  else
    let session_id := d.sessionId.getD ""
    let player_id := d.playerId.getD ""
    let conns := dictDel s.active_connections player_id
    let rooms := roomLeave s.rooms session_id reqSid
    match dictGet s.game_sessions session_id with
    | none => (⟨conns, s.game_sessions, rooms⟩, [])
    | some sess =>
      let players := sess.players.filter (fun p => p.id != player_id)
      let sessions := dictSet s.game_sessions session_id { sess with players := players }
      let sessions := if players.isEmpty then dictDel sessions session_id else sessions
      (⟨conns, sessions, rooms⟩,
       [⟨"player_leave", .obj [("playerId", .str player_id), ("reason", .str "leave")],
         roomMembers rooms session_id⟩])

/-- Payload of the `player_ready` event. -/
structure ReadyData where
  sessionId : Option String
  playerId : Option String
  isReady : Option Bool

/-- `handle_player_ready` (lines 162–190).  Validates, sets the first
matching member's `isReady` (Python `for … break`), and broadcasts
`player_ready` to the room.  An unknown session is silently skipped. -/
def handle_player_ready (reqSid : String) (d : ReadyData)
    (s : ServerState) : ServerState × List Emission :=
  if !(truthyS d.sessionId && truthyS d.playerId) then
    (s, [errorEmission reqSid "Missing sessionId or playerId"])
  else
    let session_id := d.sessionId.getD ""
    let player_id := d.playerId.getD ""
    let is_ready := d.isReady.getD false
    match dictGet s.game_sessions session_id with
    | none => (s, [])
    | some sess =>
      let players := updateFirst (fun p => p.id == player_id)
        (fun p => { p with isReady := is_ready }) sess.players
      let sessions := dictSet s.game_sessions session_id { sess with players := players }
      ({ s with game_sessions := sessions },
       [⟨"player_ready", .obj [("playerId", .str player_id), ("isReady", .bool is_ready)],
         roomMembers s.rooms session_id⟩])

/-- Payload of the `game_update` event. -/
structure UpdateData where
  sessionId : Option String
  playerId : Option String
  gameData : Option Value
  playerAction : Option Value

/-- `handle_game_update` (lines 192–220).  Validates (`gameData` must be
truthy), replaces the session's `game_data`, unconditionally sets
`status = 'active'`, and broadcasts `game_update` to the room with
`include_self=False` (every room member except the sender).  An unknown
session is silently skipped. -/
def handle_game_update (reqSid : String) (now : Nat) (d : UpdateData)
    (s : ServerState) : ServerState × List Emission :=
  if !(truthyS d.sessionId && truthyS d.playerId && truthyV d.gameData) then
    (s, [errorEmission reqSid "Missing required data"])
  else
    let session_id := d.sessionId.getD ""
    match dictGet s.game_sessions session_id with
    | none => (s, [])
    | some sess =>
      let sessions := dictSet s.game_sessions session_id
        { sess with game_data := d.gameData, status := "active" }
      ({ s with game_sessions := sessions },
       [⟨"game_update",
         .obj [("gameData", d.gameData.getD .null),
               ("playerAction", d.playerAction.getD .null),
               ("timestamp", .str (toString now))],
         (roomMembers s.rooms session_id).filter (fun h => h != reqSid)⟩])

/-- Payload of the `communication` event. -/
structure CommData where
  sessionId : Option String
  playerId : Option String
  message : Option String
  messageType : Option String
  toPlayer : Option String

/-- `handle_communication` (lines 222–248).  Validates and broadcasts
`communication` to the room; the session store is never consulted. -/
def handle_communication (reqSid : String) (now : Nat) (d : CommData)
    (s : ServerState) : ServerState × List Emission :=
  if !(truthyS d.sessionId && truthyS d.playerId && truthyS d.message) then
    (s, [errorEmission reqSid "Missing required data"])
  else
    let session_id := d.sessionId.getD ""
    (s, [⟨"communication",
          .obj [("message", .str (d.message.getD "")),
                ("fromPlayer", .str (d.playerId.getD "")),
                ("toPlayer", (d.toPlayer.map Value.str).getD .null),
                ("messageType", .str (d.messageType.getD "instruction")),
                ("timestamp", .str (toString now))],
          roomMembers s.rooms session_id⟩])

/-- Payload of the `heartbeat` event. -/
structure HeartbeatData where
  playerId : Option String
  timestamp : Option Nat

/-- `handle_heartbeat` (lines 250–268).  If the player is registered, the
first matching member of every session gets `last_seen` refreshed; a
`pong` is always emitted to the sender. -/
def handle_heartbeat (reqSid : String) (now : Nat) (d : HeartbeatData)
    (s : ServerState) : ServerState × List Emission :=
  let sessions :=
    match d.playerId with
    | none => s.game_sessions
    | some pid =>
      if (dictGet s.active_connections pid).isSome then
        s.game_sessions.map (fun e =>
          (e.1, { e.2 with players := (updateFirst (fun p => p.id == pid)
                    (fun p => { p with last_seen := some now }) e.2.players) }))
      else s.game_sessions
  ({ s with game_sessions := sessions },
   [emitSender reqSid "pong" (.obj [("timestamp", .str (toString now))])])

/-- Payload of the `create_session` event. -/
structure CreateData where
  gameType : Option String
  playerId : Option String
  playerName : Option String

/-- `handle_create_session` (lines 270–315).  Validates, stores a fresh
session (status `'waiting'`, the creator as sole member, `game_type` set),
registers the connection, joins the room, and emits `session_created` to
the sender.  The generated id `session-<uuid4 hex prefix>` is passed in as
`freshId`. -/
def handle_create_session (reqSid : String) (now : Nat) (freshId : String)
    (d : CreateData) (s : ServerState) : ServerState × List Emission :=
  if !(truthyS d.gameType && truthyS d.playerId) then
    (s, [errorEmission reqSid "Missing gameType or playerId"])
  else
    let game_type := d.gameType.getD ""
    let player_id := d.playerId.getD ""
    let player_name := d.playerName.getD "Player"
    let creator : Player := ⟨player_id, player_name, false, true, now, none⟩
    let sessions := dictSet s.game_sessions freshId
      ⟨[creator], none, "waiting", some game_type, now⟩
    let conns := dictSet s.active_connections player_id reqSid
    let rooms := roomJoin s.rooms freshId reqSid
    (⟨conns, sessions, rooms⟩,
     [emitSender reqSid "session_created"
       (.obj [("sessionId", .str freshId), ("gameType", .str game_type),
              ("players", .list ([creator].map playerToValue))])])

/-- `handle_disconnect` (lines 21–53).  Scans `active_connections` for the
player owning the closing handle, removes the mapping, and then — because
the stored value is `request.sid`, not a session id, despite the comment
on line 13 — looks the stored handle up as a key of `game_sessions` before
filtering the player out and garbage-collecting the emptied session. -/
def handle_disconnect (reqSid : String) (s : ServerState) :
    ServerState × List Emission :=
  match (s.active_connections.find? (fun e => e.2 == reqSid)).map (·.1) with
  | none => (s, [])
  | some player_id =>
    match dictGet s.active_connections player_id with
    | none => (s, [])
    | some session_id =>
      let conns := dictDel s.active_connections player_id
      match dictGet s.game_sessions session_id with
      | none => ({ s with active_connections := conns }, [])
      | some sess =>
        let players := sess.players.filter (fun p => p.id != player_id)
        let sessions := dictSet s.game_sessions session_id { sess with players := players }
        let sessions := if players.isEmpty then dictDel sessions session_id else sessions
        (⟨conns, sessions, s.rooms⟩,
         [⟨"player_leave",
           .obj [("playerId", .str player_id), ("reason", .str "disconnect")],
           roomMembers s.rooms session_id⟩])

/-- One entry of the summary dictionary `get_active_sessions` builds. -/
structure SessionSummary where
  gameType : String
  players : Nat
  maxPlayers : Nat
  status : String
  createdAt : Nat
deriving DecidableEq

/-- A dict comprehension that may raise: the whole run is `none` as soon as
one element raises. -/
def tryMap (f : α → Option β) : List α → Option (List β)
  | [] => some []
  | x :: xs =>
    match f x with
    | none => none
    | some y => (tryMap f xs).map (fun ys => y :: ys)

/-- `get_active_sessions` (lines 317–328).  The comprehension reads
`session['game_type']` with square brackets, which raises `KeyError` on a
session that has no such key; the raised run is modelled as `none`. -/
def get_active_sessions (s : ServerState) :
    Option (List (String × SessionSummary)) :=
  tryMap (fun e =>
    (e.2.game_type).map (fun gt =>
      (e.1, ⟨gt, e.2.players.length, 2, e.2.status, e.2.created_at⟩)))
    s.game_sessions

/-- No `error` event among a handler's emissions. -/
def noError (ems : List Emission) : Bool :=
  ems.all (fun e => e.event != "error")

/-- The module state at import time: both dictionaries and the room table
empty. -/
def initialState : ServerState := ⟨[], [], []⟩

/-- A well-formed `join_session` payload (no `playerName` key). -/
def joinData (sid pid : String) : JoinData := ⟨some sid, some pid, none⟩

lemma dictGet_dictSet_self (d : List (String × α)) (k : String) (v : α) :
    dictGet (dictSet d k v) k = some v := by
  induction d with
  | nil => simp [dictGet, dictSet]
  | cons e d ih =>
    by_cases h : e.1 == k
    · simp [dictSet, dictGet, h]
    · simp [dictSet, dictGet, h, ih]

lemma length_updateFirst (p : α → Bool) (f : α → α) (l : List α) :
    (updateFirst p f l).length = l.length := by
  induction l with
  | nil => rfl
  | cons x xs ih =>
    by_cases h : p x
    · simp [updateFirst, h]
    · simp [updateFirst, h, ih]

lemma find?_updateFirst (p : α → Bool) (f : α → α)
    (hpf : ∀ x, p x = true → p (f x) = true) (l : List α) :
    (updateFirst p f l).find? p = (l.find? p).map f := by
  induction l with
  | nil => rfl
  | cons x xs ih =>
    by_cases h : p x
    · simp [updateFirst, h, List.find?_cons_of_pos, hpf x h]
    · simp [updateFirst, h, List.find?_cons_of_neg, ih]

lemma tryMap_eq_none (f : α → Option β) (l : List α) (a : α)
    (ha : a ∈ l) (hfa : f a = none) : tryMap f l = none := by
  induction l with
  | nil => cases ha
  | cons x xs ih =>
    rcases List.mem_cons.mp ha with rfl | h
    · simp [tryMap, hfa]
    · cases hx : f x with
      | none => simp [tryMap, hx]
      | some y => simp [tryMap, hx, ih h]

lemma tryMap_isSome (f : α → Option β) (l : List α)
    (h : ∀ a ∈ l, (f a).isSome = true) : (tryMap f l).isSome = true := by
  induction l with
  | nil => rfl
  | cons x xs ih =>
    obtain ⟨y, hy⟩ := Option.isSome_iff_exists.mp (h x (List.mem_cons_self x xs))
    obtain ⟨ys, hys⟩ :=
      Option.isSome_iff_exists.mp (ih (fun a ha => h a (List.mem_cons_of_mem _ ha)))
    simp [tryMap, hy, hys]

/-- C1: the spec claims every session's membership has length at most 2
after every handled event, but `handle_join_session` appends any new
player without a capacity check: three distinct `join_session` events from
the initial state leave session `s1` with 3 members. -/
theorem C1_three_joins_exceed_cap :
    (dictGet ((handle_join_session "c3" 2 (joinData "s1" "p3")
        ((handle_join_session "c2" 1 (joinData "s1" "p2")
          ((handle_join_session "c1" 0 (joinData "s1" "p1")
            initialState).1)).1)).1).game_sessions "s1").map
      (fun sess => sess.players.length) = some 3 := rfl

/-- The module state after `p1` (socket `c1`) and `p2` (socket `c2`) joined
session `s1`: a session at the claimed 2-player capacity. -/
def fullSessionState : ServerState :=
  ((handle_join_session "c2" 1 (joinData "s1" "p2")
    ((handle_join_session "c1" 0 (joinData "s1" "p1") initialState).1)).1)

/-- C2: the spec claims a `join_session` with a new playerId on a session
already holding 2 members yields a Conflict `error` and no mutation, but
the handler has no capacity check: the third player is appended (3
members) and the emissions are the ordinary `player_join` and
`session_state`, with no error. -/
theorem C2_full_join_not_rejected :
    ((handle_join_session "c3" 2 (joinData "s1" "p3") fullSessionState).2.map
        (fun e => e.event) = ["player_join", "session_state"])
    ∧ (dictGet (handle_join_session "c3" 2 (joinData "s1" "p3")
          fullSessionState).1.game_sessions "s1").map
        (fun sess => sess.players.length) = some 3 := ⟨rfl, rfl⟩

/-- C4: the spec claims a disconnect that removes a session's last member
deletes the session, but `active_connections` stores `request.sid` as the
value while `handle_disconnect` uses that value as a `game_sessions` key
(the comment on line 13 promises a session id there), so the cleanup is
dead code: after the sole member's socket `sockA` disconnects, the session
store is untouched — `s1` still holds 1 member — even though the
connection registry entry was removed. -/
theorem C4_disconnect_not_cleaned :
    ((handle_disconnect "sockA"
        (handle_join_session "sockA" 0 (joinData "s1" "p1")
          initialState).1).1.game_sessions
      = (handle_join_session "sockA" 0 (joinData "s1" "p1")
          initialState).1.game_sessions)
    ∧ ((dictGet (handle_disconnect "sockA"
          (handle_join_session "sockA" 0 (joinData "s1" "p1")
            initialState).1).1.game_sessions "s1").map
        (fun sess => sess.players.length) = some 1)
    ∧ (handle_disconnect "sockA"
        (handle_join_session "sockA" 0 (joinData "s1" "p1")
          initialState).1).1.active_connections = [] := ⟨rfl, rfl, rfl⟩

/-- A store holding one completed two-player session `s1`, its sockets
`c1`, `c2` joined to the room and its gameData at `int 1`. -/
def completedState : ServerState :=
  ⟨[("p1", "c1"), ("p2", "c2")],
   [("s1", ⟨[⟨"p1", "A", true, true, 0, none⟩, ⟨"p2", "B", true, true, 0, none⟩],
            some (.int 1), "completed", some "PuzzleConnect", 0⟩)],
   [("s1", ["c1", "c2"])]⟩

/-- C3 counterexample: a `game_update` on the `completed` session `s1` is
not rejected — its status is rewritten to `active`, its gameData is
replaced by the update's payload, and no `error` is emitted. -/
theorem C3_counterexample :
    ((dictGet (handle_game_update "c1" 7 ⟨some "s1", some "p1", some (.int 9), none⟩
          completedState).1.game_sessions "s1").map
        (fun sess => sess.status) = some "active")
    ∧ ((dictGet (handle_game_update "c1" 7 ⟨some "s1", some "p1", some (.int 9), none⟩
          completedState).1.game_sessions "s1").map
        (fun sess => sess.game_data) = some (some (.int 9)))
    ∧ noError (handle_game_update "c1" 7 ⟨some "s1", some "p1", some (.int 9), none⟩
        completedState).2 = true := ⟨rfl, rfl, rfl⟩

/-- C3 amended: `handle_game_update` never consults the session's status:
a valid `game_update` on a session in terminal status (`completed` or
`abandoned`) is applied like any other — the gameData is replaced, the
status is reset to `active` — and no error is emitted. -/
theorem C3_terminal_update_applied
    (reqSid : String) (now : Nat) (sid pid : String) (gd : Value)
    (pa : Option Value) (s : ServerState) (sess : Session)
    (hsid : sid ≠ "") (hpid : pid ≠ "") (hgd : gd.truthy = true)
    (hs : dictGet s.game_sessions sid = some sess)
    (_hterm : sess.status = "completed" ∨ sess.status = "abandoned") :
    (dictGet (handle_game_update reqSid now ⟨some sid, some pid, some gd, pa⟩
        s).1.game_sessions sid
      = some { sess with game_data := some gd, status := "active" })
    ∧ noError (handle_game_update reqSid now ⟨some sid, some pid, some gd, pa⟩
        s).2 = true := by
  have h1 : (sid != "") = true := by simpa using hsid
  have h2 : (pid != "") = true := by simpa using hpid
  refine ⟨?_, ?_⟩ <;>
    simp [handle_game_update, truthyS, truthyV, h1, h2, hgd, hs,
      dictGet_dictSet_self, noError]

/-- C3 witness: the amended theorem applied to the concrete completed
session of `completedState`. -/
theorem C3_witness :
    (dictGet (handle_game_update "c1" 7 ⟨some "s1", some "p1", some (.int 9), none⟩
        completedState).1.game_sessions "s1"
      = some ⟨[⟨"p1", "A", true, true, 0, none⟩, ⟨"p2", "B", true, true, 0, none⟩],
              some (.int 9), "active", some "PuzzleConnect", 0⟩)
    ∧ noError (handle_game_update "c1" 7 ⟨some "s1", some "p1", some (.int 9), none⟩
        completedState).2 = true :=
  C3_terminal_update_applied "c1" 7 "s1" "p1" (.int 9) none completedState
    ⟨[⟨"p1", "A", true, true, 0, none⟩, ⟨"p2", "B", true, true, 0, none⟩],
     some (.int 1), "completed", some "PuzzleConnect", 0⟩
    (by decide) (by decide) rfl rfl (Or.inl rfl)

lemma isConnected_find?_updateFirst (pid : String) (now : Nat)
    (players : List Player)
    (hmem : players.any (fun p => p.id == pid) = true) :
    ((updateFirst (fun p => p.id == pid)
        (fun p => { p with isConnected := true, joined_at := now })
        players).find? (fun p => p.id == pid)).map (fun p => p.isConnected)
      = some true := by
  rw [find?_updateFirst _ _ (fun x hx => by simpa using hx)]
  obtain ⟨x, hx⟩ := Option.isSome_iff_exists.mp
    (List.find?_isSome.mpr (List.any_eq_true.mp hmem))
  simp [hx]

/-- C5: a repeat `join_session` with a playerId already in the session's
membership is an idempotent no-op success: the membership count is
unchanged, the (first) member carrying that id has `isConnected = true`
afterwards, and no `error` event is emitted. -/
theorem C5_rejoin_idempotent
    (reqSid : String) (now : Nat) (sid pid : String) (pn : Option String)
    (s : ServerState) (sess : Session)
    (hsid : sid ≠ "") (hpid : pid ≠ "")
    (hs : dictGet s.game_sessions sid = some sess)
    (hmem : sess.players.any (fun p => p.id == pid) = true) :
    ((dictGet (handle_join_session reqSid now ⟨some sid, some pid, pn⟩
          s).1.game_sessions sid).map (fun t => t.players.length)
      = some sess.players.length)
    ∧ (((dictGet (handle_join_session reqSid now ⟨some sid, some pid, pn⟩
            s).1.game_sessions sid).bind
          (fun t => t.players.find? (fun p => p.id == pid))).map
        (fun p => p.isConnected) = some true)
    ∧ noError (handle_join_session reqSid now ⟨some sid, some pid, pn⟩
        s).2 = true := by
  have h1 : (sid != "") = true := by simpa using hsid
  have h2 : (pid != "") = true := by simpa using hpid
  have hres : (handle_join_session reqSid now ⟨some sid, some pid, pn⟩
        s).1.game_sessions
      = dictSet s.game_sessions sid
          { sess with players := (updateFirst (fun p => p.id == pid)
              (fun p => { p with isConnected := true, joined_at := now })
              sess.players) } := by
    simp [handle_join_session, truthyS, h1, h2, hs, hmem]
  refine ⟨?_, ?_, ?_⟩
  · rw [hres, dictGet_dictSet_self]
    simp [length_updateFirst]
  · rw [hres, dictGet_dictSet_self]
    simpa using isConnected_find?_updateFirst pid now sess.players hmem
  · simp only [handle_join_session, truthyS, h1, h2, Bool.and_self,
      Bool.not_true, Bool.false_eq_true, if_false, Bool.true_and,
      Bool.not_false, ite_false, ite_true]
    simp [noError, emitSender, hs, hmem]

/-- C5 witness: `p1` re-joining `s1` in `completedState` (it is already a
member there). -/
theorem C5_witness :
    ((dictGet (handle_join_session "c9" 5 ⟨some "s1", some "p1", none⟩
          completedState).1.game_sessions "s1").map (fun t => t.players.length)
      = some 2)
    ∧ (((dictGet (handle_join_session "c9" 5 ⟨some "s1", some "p1", none⟩
            completedState).1.game_sessions "s1").bind
          (fun t => t.players.find? (fun p => p.id == "p1"))).map
        (fun p => p.isConnected) = some true)
    ∧ noError (handle_join_session "c9" 5 ⟨some "s1", some "p1", none⟩
        completedState).2 = true :=
  C5_rejoin_idempotent "c9" 5 "s1" "p1" none completedState
    ⟨[⟨"p1", "A", true, true, 0, none⟩, ⟨"p2", "B", true, true, 0, none⟩],
     some (.int 1), "completed", some "PuzzleConnect", 0⟩
    (by decide) (by decide) rfl (by decide)

/-- C6: a valid `game_update` on an existing session emits exactly one
`game_update` broadcast whose recipients are every handle joined to the
session's room except the sender's own; the sender never receives an echo
and every other room member does. -/
theorem C6_update_broadcast_excludes_sender
    (reqSid : String) (now : Nat) (sid pid : String) (gd : Value)
    (pa : Option Value) (s : ServerState) (sess : Session)
    (hsid : sid ≠ "") (hpid : pid ≠ "") (hgd : gd.truthy = true)
    (hs : dictGet s.game_sessions sid = some sess) :
    ((handle_game_update reqSid now ⟨some sid, some pid, some gd, pa⟩ s).2
      = [⟨"game_update",
          .obj [("gameData", gd), ("playerAction", pa.getD .null),
                ("timestamp", .str (toString now))],
          (roomMembers s.rooms sid).filter (fun h => h != reqSid)⟩])
    ∧ reqSid ∉ (roomMembers s.rooms sid).filter (fun h => h != reqSid)
    ∧ ∀ h ∈ roomMembers s.rooms sid, h ≠ reqSid →
        h ∈ (roomMembers s.rooms sid).filter (fun h => h != reqSid) := by
  have h1 : (sid != "") = true := by simpa using hsid
  have h2 : (pid != "") = true := by simpa using hpid
  refine ⟨?_, ?_, ?_⟩
  · simp [handle_game_update, truthyS, truthyV, h1, h2, hgd, hs]
  · simp
  · intro h hmem hne
    exact List.mem_filter.mpr ⟨hmem, by simpa using hne⟩

/-- C6 witness: `p1` (socket `c1`) updating `s1` in `completedState`; the
room is `[c1, c2]`, the broadcast reaches exactly `c2`. -/
theorem C6_witness :
    ((handle_game_update "c1" 7 ⟨some "s1", some "p1", some (.int 9), none⟩
        completedState).2
      = [⟨"game_update",
          .obj [("gameData", .int 9), ("playerAction", Value.null),
                ("timestamp", .str (toString 7))],
          (roomMembers completedState.rooms "s1").filter (fun h => h != "c1")⟩])
    ∧ "c1" ∉ (roomMembers completedState.rooms "s1").filter (fun h => h != "c1")
    ∧ ∀ h ∈ roomMembers completedState.rooms "s1", h ≠ "c1" →
        h ∈ (roomMembers completedState.rooms "s1").filter (fun h => h != "c1") :=
  C6_update_broadcast_excludes_sender "c1" 7 "s1" "p1" (.int 9) none
    completedState
    ⟨[⟨"p1", "A", true, true, 0, none⟩, ⟨"p2", "B", true, true, 0, none⟩],
     some (.int 1), "completed", some "PuzzleConnect", 0⟩
    (by decide) (by decide) rfl rfl

/-- C7 counterexample: a `join_session` naming a sessionId absent from the
store does not produce an error and does mutate the store — it implicitly
creates the session. -/
theorem C7_counterexample :
    noError (handle_join_session "c1" 0 (joinData "s1" "p1") initialState).2
      = true
    ∧ (dictGet (handle_join_session "c1" 0 (joinData "s1" "p1")
        initialState).1.game_sessions "s1").isSome = true := ⟨rfl, rfl⟩

/-- C7 amended: events naming an unknown sessionId never emit an `error`:
`join_session` implicitly creates the session at status `waiting` with no
`game_type` and the joiner as sole member; `leave_session` leaves the
session store unchanged and emits nothing (though it still unregisters the
player's connection); `player_ready` and `game_update` change nothing and
emit nothing; `communication` broadcasts without consulting the store. -/
theorem C7_unknown_session_no_error
    (reqSid : String) (now : Nat) (sid pid msg : String)
    (pn mt tp : Option String) (ir : Option Bool)
    (gd : Value) (pa : Option Value) (s : ServerState)
    (hsid : sid ≠ "") (hpid : pid ≠ "") (hmsg : msg ≠ "")
    (hgd : gd.truthy = true)
    (habs : dictGet s.game_sessions sid = none) :
    ((dictGet (handle_join_session reqSid now ⟨some sid, some pid, pn⟩
          s).1.game_sessions sid).map
        (fun t => (t.players.map (fun p => p.id), t.status, t.game_type))
      = some ([pid], "waiting", none)
      ∧ noError (handle_join_session reqSid now ⟨some sid, some pid, pn⟩
          s).2 = true)
    ∧ ((handle_leave_session reqSid ⟨some sid, some pid⟩ s).1.game_sessions
        = s.game_sessions
      ∧ (handle_leave_session reqSid ⟨some sid, some pid⟩ s).2 = [])
    ∧ handle_player_ready reqSid ⟨some sid, some pid, ir⟩ s = (s, [])
    ∧ handle_game_update reqSid now ⟨some sid, some pid, some gd, pa⟩ s
        = (s, [])
    ∧ ((handle_communication reqSid now
          ⟨some sid, some pid, some msg, mt, tp⟩ s).1 = s
      ∧ noError (handle_communication reqSid now
          ⟨some sid, some pid, some msg, mt, tp⟩ s).2 = true) := by
  have h1 : (sid != "") = true := by simpa using hsid
  have h2 : (pid != "") = true := by simpa using hpid
  have h3 : (msg != "") = true := by simpa using hmsg
  refine ⟨⟨?_, ?_⟩, ⟨?_, ?_⟩, ?_, ?_, ?_, ?_⟩
  · simp [handle_join_session, truthyS, h1, h2, habs, dictGet_dictSet_self]
  · simp [handle_join_session, truthyS, h1, h2, habs, dictGet_dictSet_self,
      noError, emitSender]
  · simp [handle_leave_session, truthyS, h1, h2, habs]
  · simp [handle_leave_session, truthyS, h1, h2, habs]
  · simp [handle_player_ready, truthyS, h1, h2, habs]
  · simp [handle_game_update, truthyS, truthyV, h1, h2, hgd, habs]
  · simp [handle_communication, truthyS, h1, h2, h3]
  · simp [handle_communication, truthyS, h1, h2, h3, noError]

/-- C7 witness: the amended behaviour at concrete inputs — unknown session
`zz` over the one-session store `completedState`. -/
theorem C7_witness :
    ((dictGet (handle_join_session "c9" 3 ⟨some "zz", some "p9", none⟩
          completedState).1.game_sessions "zz").map
        (fun t => (t.players.map (fun p => p.id), t.status, t.game_type))
      = some (["p9"], "waiting", none)
      ∧ noError (handle_join_session "c9" 3 ⟨some "zz", some "p9", none⟩
          completedState).2 = true)
    ∧ ((handle_leave_session "c9" ⟨some "zz", some "p9"⟩
          completedState).1.game_sessions = completedState.game_sessions
      ∧ (handle_leave_session "c9" ⟨some "zz", some "p9"⟩
          completedState).2 = [])
    ∧ handle_player_ready "c9" ⟨some "zz", some "p9", some true⟩
        completedState = (completedState, [])
    ∧ handle_game_update "c9" 3 ⟨some "zz", some "p9", some (.int 5), none⟩
        completedState = (completedState, [])
    ∧ ((handle_communication "c9" 3
          ⟨some "zz", some "p9", some "hi", none, none⟩ completedState).1
        = completedState
      ∧ noError (handle_communication "c9" 3
          ⟨some "zz", some "p9", some "hi", none, none⟩ completedState).2
        = true) :=
  C7_unknown_session_no_error "c9" 3 "zz" "p9" "hi" none none none
    (some true) (.int 5) none completedState
    (by decide) (by decide) (by decide) rfl rfl

/-- C8: a `create_session` with gameType and playerId present stores a new
session under the generated id at status `waiting` whose sole member is
the creator with `isReady = false` and `isConnected = true`, registers the
creator's connection, and emits a single `session_created` to the sender
carrying the sessionId, the gameType and the player list. -/
theorem C8_create_session_effects
    (reqSid : String) (now : Nat) (freshId gt pid : String)
    (pn : Option String) (s : ServerState)
    (hgt : gt ≠ "") (hpid : pid ≠ "") :
    (dictGet (handle_create_session reqSid now freshId ⟨some gt, some pid, pn⟩
        s).1.game_sessions freshId
      = some ⟨[⟨pid, pn.getD "Player", false, true, now, none⟩],
              none, "waiting", some gt, now⟩)
    ∧ (dictGet (handle_create_session reqSid now freshId
          ⟨some gt, some pid, pn⟩ s).1.active_connections pid = some reqSid)
    ∧ ((handle_create_session reqSid now freshId ⟨some gt, some pid, pn⟩ s).2
      = [⟨"session_created",
          .obj [("sessionId", .str freshId), ("gameType", .str gt),
                ("players", .list [playerToValue
                  ⟨pid, pn.getD "Player", false, true, now, none⟩])],
          [reqSid]⟩]) := by
  have h1 : (gt != "") = true := by simpa using hgt
  have h2 : (pid != "") = true := by simpa using hpid
  refine ⟨?_, ?_, ?_⟩ <;>
    simp [handle_create_session, truthyS, h1, h2, dictGet_dictSet_self,
      emitSender]

/-- C8 witness: creating `session-ab` as `p1` on the empty state. -/
theorem C8_witness :
    (dictGet (handle_create_session "c1" 3 "session-ab"
        ⟨some "PuzzleConnect", some "p1", some "Ann"⟩
        initialState).1.game_sessions "session-ab"
      = some ⟨[⟨"p1", "Ann", false, true, 3, none⟩],
              none, "waiting", some "PuzzleConnect", 3⟩)
    ∧ (dictGet (handle_create_session "c1" 3 "session-ab"
          ⟨some "PuzzleConnect", some "p1", some "Ann"⟩
          initialState).1.active_connections "p1" = some "c1")
    ∧ ((handle_create_session "c1" 3 "session-ab"
          ⟨some "PuzzleConnect", some "p1", some "Ann"⟩ initialState).2
      = [⟨"session_created",
          .obj [("sessionId", .str "session-ab"),
                ("gameType", .str "PuzzleConnect"),
                ("players", .list [playerToValue
                  ⟨"p1", "Ann", false, true, 3, none⟩])],
          ["c1"]⟩]) :=
  C8_create_session_effects "c1" 3 "session-ab" "PuzzleConnect" "p1"
    (some "Ann") initialState (by decide) (by decide)

/-- The literal state `handle_join_session` leaves behind after `p1` joins
the unknown session `s1` from the empty state: the implicitly created
session has no `game_type`. -/
def implicitStore : ServerState :=
  ⟨[("p1", "c1")],
   [("s1", ⟨[⟨"p1", "Player", false, true, 0, none⟩], none, "waiting",
            none, 0⟩)],
   [("s1", ["c1"])]⟩

/-- C9: a session created implicitly by `join_session` carries no
`game_type`; `get_active_sessions` raises `KeyError` (modelled `none`) as
soon as any stored session lacks `game_type`, and returns normally when
every stored session carries one. -/
theorem C9_implicit_session_breaks_listing :
    (∀ (reqSid : String) (now : Nat) (sid pid : String) (pn : Option String)
        (s : ServerState), sid ≠ "" → pid ≠ "" →
        dictGet s.game_sessions sid = none →
        (dictGet (handle_join_session reqSid now ⟨some sid, some pid, pn⟩
            s).1.game_sessions sid).map (fun t => t.game_type) = some none)
    ∧ (∀ s : ServerState, (∃ e ∈ s.game_sessions, e.2.game_type = none) →
        get_active_sessions s = none)
    ∧ (∀ s : ServerState,
        (∀ e ∈ s.game_sessions, e.2.game_type.isSome = true) →
        (get_active_sessions s).isSome = true) := by
  refine ⟨?_, ?_, ?_⟩
  · intro reqSid now sid pid pn s hsid hpid habs
    have h1 : (sid != "") = true := by simpa using hsid
    have h2 : (pid != "") = true := by simpa using hpid
    simp [handle_join_session, truthyS, h1, h2, habs, dictGet_dictSet_self]
  · intro s hmem
    obtain ⟨e, he, hnone⟩ := hmem
    exact tryMap_eq_none _ _ e he (by simp [hnone])
  · intro s hall
    exact tryMap_isSome _ _ (fun e he => by
      simpa using hall e he)

/-- C9 witness: the three parts at concrete stores — a join-created
session has no `game_type`; the listing raises over `implicitStore` and
succeeds over `completedState`. -/
theorem C9_witness :
    ((dictGet (handle_join_session "c1" 0 ⟨some "s1", some "p1", none⟩
        initialState).1.game_sessions "s1").map (fun t => t.game_type)
      = some none)
    ∧ get_active_sessions implicitStore = none
    ∧ (get_active_sessions completedState).isSome = true :=
  ⟨C9_implicit_session_breaks_listing.1 "c1" 0 "s1" "p1" none initialState
      (by decide) (by decide) rfl,
   C9_implicit_session_breaks_listing.2.1 implicitStore
     ⟨("s1", ⟨[⟨"p1", "Player", false, true, 0, none⟩], none, "waiting",
              none, 0⟩), List.Mem.head _, rfl⟩,
   C9_implicit_session_breaks_listing.2.2 completedState (by
     intro e he
     rcases List.mem_singleton.mp he with rfl
     rfl)⟩

/-- C10: a `game_update` whose `gameData` key is present but falsy (empty
object, empty string, zero, false, …) is rejected by the same `Missing
required data` validation as an absent key: the state is unchanged, the
only emission is the error, and the result coincides with the
absent-`gameData` run. -/
theorem C10_falsy_gameData_rejected
    (reqSid : String) (now : Nat) (osid opid : Option String)
    (gd : Value) (pa : Option Value) (s : ServerState)
    (hgd : gd.truthy = false) :
    handle_game_update reqSid now ⟨osid, opid, some gd, pa⟩ s
      = (s, [errorEmission reqSid "Missing required data"])
    ∧ handle_game_update reqSid now ⟨osid, opid, some gd, pa⟩ s
      = handle_game_update reqSid now ⟨osid, opid, none, pa⟩ s := by
  constructor <;> simp [handle_game_update, truthyV, hgd]

/-- C10 witness: the empty object `{}` as gameData on a well-formed
`game_update` over the full store. -/
theorem C10_witness :
    handle_game_update "c1" 7 ⟨some "s1", some "p1", some (.obj []), none⟩
        completedState
      = (completedState, [errorEmission "c1" "Missing required data"])
    ∧ handle_game_update "c1" 7 ⟨some "s1", some "p1", some (.obj []), none⟩
        completedState
      = handle_game_update "c1" 7 ⟨some "s1", some "p1", none, none⟩
          completedState :=
  C10_falsy_gameData_rejected "c1" 7 (some "s1") (some "p1") (.obj []) none
    completedState rfl

end PlayDate
